import Mathlib

/-!
Verification development for the health-procurement dashboard (`src/app.py`).

The dashboard loads a CSV table `compras` into DuckDB, derives a parsed date
column, builds a WHERE clause from sidebar filter state by string
interpolation (lines 209-234 of the source), and runs a fixed set of
aggregate queries against it.

Modelling choices, all taken from the source:
* A date is encoded as the integer `yyyymmdd`; integer order is calendar
  order and `DATE_TRUNC(month, d)` is `d.fdiv 100`.
* `FechaEnvioOC_parsed` is `TRY_CAST(FechaEnvioOC AS DATE)`: `Option Int`,
  `none` when the raw text fails to parse (app.py lines 132-138).
* The monetary column `MontoTotalOC_CLP` is free-form text; every query
  reads it through `TRY_CAST(... AS DOUBLE)`.  We model the cast result as
  `Option Rat`, `none` when the text fails to parse as a number.
* Nullable CSV text columns are `Option String`.
* SQL comparison with NULL is not TRUE, so a WHERE conjunct on a null value
  rejects the row; `SUM`/`AVG`/`COUNT(DISTINCT col)` ignore NULL and `SUM`
  over no non-null values is NULL; a `GROUP BY` key may be NULL and then
  forms its own group; an aggregate query without GROUP BY returns exactly
  one row.  `ORDER BY` places NULL keys last (DuckDB default null order).
-/

namespace SaludApp

/-- One row of the `compras` table after load, with the derived parsed date
column and the amount viewed through `TRY_CAST`. -/
structure Row where
  codigoOC : Option String
  fechaParsed : Option Int
  proveedor : Option String
  proveedorRUT : Option String
  regionProveedor : Option String
  regionUnidadCompra : Option String
  onuProducto : Option String
  rubroN1 : Option String
  montoTotalOC : Option Rat
deriving DecidableEq

/-- The sidebar filter state (app.py lines 179-203).  `region_proveedor`,
`region_compra` and `especialidad_selected` use the sentinel `"Todas"` for
"unconstrained"; an empty `search_term` is inactive (Python truthiness). -/
structure FilterState where
  solo_salud : Bool
  fecha_inicio : Int
  fecha_fin : Int
  region_proveedor : String
  region_compra : String
  especialidad_selected : String
  search_term : String
deriving DecidableEq

/-- The fixed 16-region enumeration (app.py lines 149-154). -/
def REGIONES_CHILE : List String :=
  ["Arica y Parinacota", "Tarapacá", "Antofagasta", "Atacama", "Coquimbo",
   "Valparaíso", "Metropolitana de Santiago",
   "Libertador Gral. Bernardo O\x27Higgins",
   "Maule", "Ñuble", "Biobío", "La Araucanía", "Los Ríos", "Los Lagos",
   "Aysén del Gral. Carlos Ibáñez del Campo",
   "Magallanes y de la Antártica Chilena"]

/-- Options offered by the supplier-region selectbox (app.py line 189). -/
def region_proveedor_options : List String := "Todas" :: REGIONES_CHILE

/-- Options offered by the purchase-region selectbox (app.py line 192). -/
def region_compra_options : List String := "Todas" :: REGIONES_CHILE

/-- Options offered by the category selectbox (app.py lines 196-198):
`"Todas"` plus the distinct non-null `ONUProducto` values of the loaded
data.  The `ORDER BY` of the source query only affects presentation order
and is dropped here. -/
def especialidades_options (db : List Row) : List String :=
  "Todas" :: (db.filterMap (·.onuProducto)).dedup

-- ==========================================
-- The WHERE-clause string builder (app.py lines 209-234)
-- ==========================================

/-- ASCII lowering of one character: the effect of Python `str.lower` and
SQL `LOWER` on the ASCII range (the only case handling the claims use). -/
def lowerChar (c : Char) : Char :=
  if c.isUpper then Char.ofNat (c.toNat + 32) else c

/-- ASCII lowering of a string. -/
def lowerStr (s : String) : String := String.mk (s.data.map lowerChar)

/-- The search clause built on app.py line 232: the raw user term is
interpolated directly into the SQL text on both sides of the OR
(`search_term.lower()` on the name side, the raw term on the tax-id side). -/
def search_clause (term : String) : String :=
  "(LOWER(Proveedor) LIKE \x27%" ++ lowerStr term ++
    "%\x27 OR ProveedorRUT LIKE \x27%" ++ term ++ "%\x27)"

/-- The list `where_clauses` of app.py lines 209-232, in source order:
health filter when active, the two always-present date bounds, the three
optional equality filters, and the search clause when the term is
non-empty.  Every value is interpolated as raw text, exactly as the
f-strings of the source do. -/
def where_clauses (fs : FilterState) : List String :=
  (if fs.solo_salud then
    ["(LOWER(RubroN1) LIKE \x27%salud%\x27 OR LOWER(RubroN1) LIKE \x27%médico%\x27)"]
   else [])
  ++ ["FechaEnvioOC_parsed >= DATE \x27" ++ toString fs.fecha_inicio ++ "\x27",
      "FechaEnvioOC_parsed <= DATE \x27" ++ toString fs.fecha_fin ++ "\x27"]
  ++ (if fs.region_proveedor = "Todas" then []
      else ["RegionProveedor = \x27" ++ fs.region_proveedor ++ "\x27"])
  ++ (if fs.region_compra = "Todas" then []
      else ["RegionUnidadCompra = \x27" ++ fs.region_compra ++ "\x27"])
  ++ (if fs.especialidad_selected = "Todas" then []
      else ["ONUProducto = \x27" ++ fs.especialidad_selected ++ "\x27"])
  ++ (if fs.search_term = "" then [] else [search_clause fs.search_term])

/-- `where_sql` of app.py line 234. -/
def where_sql (fs : FilterState) : String :=
  String.intercalate " AND " (where_clauses fs)

/-- The query construction of the source never validates filter values and
has no error path: compilation always succeeds with the interpolated WHERE
string.  (The spec instead demands an `InvalidFilterError`; no such error
exists anywhere in the source.) -/
def compile (fs : FilterState) : Except String String :=
  Except.ok (where_sql fs)

-- ==========================================
-- SQL lexing of single-quoted string literals
-- ==========================================

/-- Scanner mode for `sqlLex`: outside any literal, inside a literal, or
just after a quote inside a literal (which is either the closing quote or
the first half of an escaped quote). -/
inductive LexMode
  | outside
  | inLit
  | afterQuote
deriving DecidableEq

/-- Scanner state: current mode, the literal being accumulated, the
literals already completed, and the text seen outside literals. -/
structure LexSt where
  mode : LexMode
  cur : String
  lits : List String
  plain : String
deriving DecidableEq

/-- One step of the SQL string-literal scanner, honouring the standard
doubled-quote escape. -/
def sqlStep (st : LexSt) (c : Char) : LexSt :=
  match st.mode with
  | .outside =>
      if c = '\x27' then { st with mode := .inLit, cur := "" }
      else { st with plain := st.plain.push c }
  | .inLit =>
      if c = '\x27' then { st with mode := .afterQuote }
      else { st with cur := st.cur.push c }
  | .afterQuote =>
      if c = '\x27' then { st with mode := .inLit, cur := st.cur.push '\x27' }
      else { st with mode := .outside, lits := st.lits ++ [st.cur], cur := "",
                     plain := st.plain.push c }

/-- Lex a SQL fragment into its string literals and the text outside them. -/
def sqlLex (s : String) : LexSt :=
  let st := s.toList.foldl sqlStep ⟨.outside, "", [], ""⟩
  match st.mode with
  | .afterQuote => { st with mode := .outside, lits := st.lits ++ [st.cur], cur := "" }
  | _ => st

/-- The contents of the single-quoted string literals of a SQL fragment, in
order. -/
def sqlLiterals (s : String) : List String := (sqlLex s).lits

/-- The text of a SQL fragment standing outside every string literal: this
is the part the SQL parser reads as syntax (keywords, operators, column
names). -/
def sqlOutsideText (s : String) : String := (sqlLex s).plain

-- ==========================================
-- Semantics of the compiled predicate
-- ==========================================

/-- Is `t` a contiguous substring of the character list? -/
def likeSub (t : String) : List Char → Bool
  | [] => t.toList.isPrefixOf []
  | c :: cs => t.toList.isPrefixOf (c :: cs) || likeSub t cs

/-- Substring test on strings: the meaning of `col LIKE '%t%'` for a `t`
that contains no SQL wildcard. -/
def strContainsSub (s t : String) : Bool := likeSub t s.toList

/-- `col LIKE '%t%'` in SQL three-valued logic: a NULL column makes the
clause not-TRUE, so the row is rejected. -/
def likeContains (col : Option String) (t : String) : Bool :=
  match col with
  | none => false
  | some s => strContainsSub s t

/-- The health clause of app.py line 213. -/
def clause_salud (r : Row) : Bool :=
  likeContains (r.rubroN1.map lowerStr) "salud" ||
  likeContains (r.rubroN1.map lowerStr) "médico"

/-- The lower date bound of app.py line 216 (`>=`, NULL date rejected). -/
def clause_fecha_ge (fs : FilterState) (r : Row) : Bool :=
  match r.fechaParsed with
  | none => false
  | some d => decide (fs.fecha_inicio ≤ d)

/-- The upper date bound of app.py line 217 (`<=`, NULL date rejected). -/
def clause_fecha_le (fs : FilterState) (r : Row) : Bool :=
  match r.fechaParsed with
  | none => false
  | some d => decide (d ≤ fs.fecha_fin)

/-- SQL `col = 'v'`: TRUE iff the column is non-null and equal. -/
def clause_eq (col : Option String) (v : String) : Bool :=
  decide (col = some v)

/-- The search clause of app.py line 232, read semantically for a term free
of SQL metacharacters: case-insensitive substring on the supplier name OR
substring on the tax id. -/
def clause_search (term : String) (r : Row) : Bool :=
  likeContains (r.proveedor.map lowerStr) (lowerStr term) ||
  likeContains r.proveedorRUT term

/-- Evaluation of the compiled WHERE clause on one row, mirroring the
construction of app.py lines 209-232 conjunct by conjunct: a conjunct is
present exactly when its filter is active, and the two date bounds are
always present.  This is the SQL truth value of `where_sql fs` on the row
when every interpolated filter value is free of SQL metacharacters (the
injection cases are treated separately through the lexer). -/
def rowMatches (fs : FilterState) (r : Row) : Bool :=
  (if fs.solo_salud then clause_salud r else true) &&
  clause_fecha_ge fs r &&
  clause_fecha_le fs r &&
  (if fs.region_proveedor = "Todas" then true
   else clause_eq r.regionProveedor fs.region_proveedor) &&
  (if fs.region_compra = "Todas" then true
   else clause_eq r.regionUnidadCompra fs.region_compra) &&
  (if fs.especialidad_selected = "Todas" then true
   else clause_eq r.onuProducto fs.especialidad_selected) &&
  (if fs.search_term = "" then true
   else clause_search fs.search_term r)

/-- The rows of the store satisfying the compiled predicate: the common
`FROM compras WHERE {where_sql}` row set of every view. -/
def matching (fs : FilterState) (db : List Row) : List Row :=
  db.filter (rowMatches fs)

-- ==========================================
-- Aggregation primitives (SQL semantics)
-- ==========================================

/-- SQL `SUM` over a nullable column: NULL values are ignored, and the sum
over no non-null value is NULL. -/
def sqlSum (l : List (Option Rat)) : Option Rat :=
  match l.filterMap id with
  | [] => none
  | vs => some vs.sum

/-- SQL `AVG` over a nullable column: NULL values are ignored (the divisor
is the count of non-null values), NULL when there is none. -/
def sqlAvg (l : List (Option Rat)) : Option Rat :=
  match l.filterMap id with
  | [] => none
  | vs => some (vs.sum / (vs.length : Rat))

/-- SQL `COUNT(DISTINCT col)`: distinct non-null values. -/
def distinctCount (l : List (Option String)) : Nat :=
  (l.filterMap id).dedup.length

/-- Insert `x` into `l` in front of the first element `y` with `le x y`. -/
def insertLe (le : α → α → Bool) (x : α) : List α → List α
  | [] => [x]
  | y :: ys => if le x y then x :: y :: ys else y :: insertLe le x ys

/-- Insertion sort by the boolean relation `le` (models `ORDER BY`; the
claims below depend only on the multiset of results, never on tie order). -/
def sortLe (le : α → α → Bool) : List α → List α
  | [] => []
  | x :: xs => insertLe le x (sortLe le xs)

/-- Descending order on a nullable number, NULL keys last (DuckDB default
null order). -/
def optDescLe (a b : Option Rat) : Bool :=
  match a, b with
  | none, none => true
  | none, some _ => false
  | some _, none => true
  | some x, some y => decide (y ≤ x)

/-- Descending order on a nullable date, NULL keys last. -/
def optIntDescLe (a b : Option Int) : Bool :=
  match a, b with
  | none, none => true
  | none, some _ => false
  | some _, none => true
  | some x, some y => decide (y ≤ x)

/-- Ascending order on a nullable month key, NULL keys last. -/
def optIntAscLe (a b : Option Int) : Bool :=
  match a, b with
  | none, none => true
  | none, some _ => false
  | some _, none => true
  | some x, some y => decide (x ≤ y)

/-- The group of matching rows whose key under `f` is `k` (SQL `GROUP BY f`
collects NULL keys into their own group). -/
def groupOf (f : Row → Option String) (fs : FilterState) (db : List Row)
    (k : Option String) : List Row :=
  (matching fs db).filter (fun r => decide (f r = k))

/-- The distinct group keys produced by `GROUP BY f` over the matching
rows, NULL included when present. -/
def groupKeys (f : Row → Option String) (fs : FilterState) (db : List Row) :
    List (Option String) :=
  ((matching fs db).map f).dedup

-- ==========================================
-- Aggregation views
-- ==========================================

/-- Output row of `kpi_query` (app.py lines 242-249). -/
structure KpiRow where
  total_adjudicadores : Nat
  total_ordenes : Nat
  monto_total : Option Rat
deriving DecidableEq

/-- The single output row of `kpi_query` (app.py lines 242-249). -/
def kpi_row (fs : FilterState) (db : List Row) : KpiRow :=
  { total_adjudicadores := distinctCount ((matching fs db).map (·.proveedorRUT)),
    total_ordenes := (matching fs db).length,
    monto_total := sqlSum ((matching fs db).map (·.montoTotalOC)) }

/-- The `kpi_query` of app.py lines 242-250: an aggregate query without
GROUP BY, hence always exactly one output row, even over an empty store. -/
def kpi_rows (fs : FilterState) (db : List Row) : List KpiRow :=
  [kpi_row fs db]

/-- The `regiones_activas_query` of app.py lines 278-282. -/
def regiones_activas (fs : FilterState) (db : List Row) : Nat :=
  distinctCount ((matching fs db).map (·.regionProveedor))

/-- The distinct non-null categories among the matching rows: the group
keys of the two category views, which filter `ONUProducto IS NOT NULL`. -/
def espKeys (fs : FilterState) (db : List Row) : List String :=
  ((matching fs db).filterMap (·.onuProducto)).dedup

/-- `top_especialidades_query` (app.py lines 315-324): count per non-null
category, count descending, top 10. -/
def top_especialidades_rows (fs : FilterState) (db : List Row) :
    List (String × Nat) :=
  (sortLe (fun a b => decide (b.2 ≤ a.2))
    ((espKeys fs db).map
      (fun k => (k, (groupOf (·.onuProducto) fs db (some k)).length)))).take 10

/-- `monto_region_query` (app.py lines 350-359): amount sum per supplier
region, no NULL-key exclusion, amount descending, top 10. -/
def monto_region_rows (fs : FilterState) (db : List Row) :
    List (Option String × Option Rat) :=
  (sortLe (fun a b => optDescLe a.2 b.2)
    ((groupKeys (·.regionProveedor) fs db).map
      (fun k => (k, sqlSum ((groupOf (·.regionProveedor) fs db k).map
        (·.montoTotalOC)))))).take 10

/-- Output row of `tendencia_query` (app.py lines 381-390). -/
structure TrendRow where
  mes : Option Int
  ordenes : Nat
  proveedores : Nat
deriving DecidableEq

/-- `DATE_TRUNC(month, FechaEnvioOC_parsed)` on the `yyyymmdd` encoding:
NULL date gives a NULL month key. -/
def mesOf (r : Row) : Option Int := r.fechaParsed.map (fun d => d.fdiv 100)

/-- `tendencia_query` (app.py lines 381-390): per-month order count and
distinct supplier count, month ascending, no limit. -/
def tendencia_rows (fs : FilterState) (db : List Row) : List TrendRow :=
  sortLe (fun a b => optIntAscLe a.mes b.mes)
    ((((matching fs db).map mesOf).dedup).map
      (fun m =>
        { mes := m,
          ordenes := ((matching fs db).filter (fun r => decide (mesOf r = m))).length,
          proveedores := distinctCount
            (((matching fs db).filter (fun r => decide (mesOf r = m))).map
              (·.proveedorRUT)) }))

/-- Output row of `adj_region_query` (app.py lines 433-442). -/
structure AdjRegionRow where
  region : Option String
  adjudicadores : Nat
  ordenes : Nat
deriving DecidableEq

/-- `adj_region_query` (app.py lines 433-442): distinct suppliers and order
count per supplier region, no NULL-key exclusion, suppliers descending. -/
def adj_region_rows (fs : FilterState) (db : List Row) : List AdjRegionRow :=
  sortLe (fun a b => decide (b.adjudicadores ≤ a.adjudicadores))
    ((groupKeys (·.regionProveedor) fs db).map
      (fun k =>
        { region := k,
          adjudicadores := distinctCount
            ((groupOf (·.regionProveedor) fs db k).map (·.proveedorRUT)),
          ordenes := (groupOf (·.regionProveedor) fs db k).length }))

/-- Output row of `compras_region_query` (app.py lines 478-487). -/
structure ComprasRegionRow where
  region : Option String
  ordenes : Nat
  monto_total : Option Rat
deriving DecidableEq

/-- `compras_region_query` (app.py lines 478-487): order count and amount
sum per purchase region, no NULL-key exclusion, orders descending. -/
def compras_region_rows (fs : FilterState) (db : List Row) :
    List ComprasRegionRow :=
  sortLe (fun a b => decide (b.ordenes ≤ a.ordenes))
    ((groupKeys (·.regionUnidadCompra) fs db).map
      (fun k =>
        { region := k,
          ordenes := (groupOf (·.regionUnidadCompra) fs db k).length,
          monto_total := sqlSum ((groupOf (·.regionUnidadCompra) fs db k).map
            (·.montoTotalOC)) }))

/-- Output row of `especialidades_completo_query` (app.py lines 529-540). -/
structure EspRow where
  especialidad : String
  ordenes : Nat
  proveedores : Nat
  monto_total : Option Rat
  monto_promedio : Option Rat
deriving DecidableEq

/-- One output row of the category-detail query for a given non-null
category key. -/
def espAggRow (fs : FilterState) (db : List Row) (k : String) : EspRow :=
  { especialidad := k,
    ordenes := (groupOf (·.onuProducto) fs db (some k)).length,
    proveedores := distinctCount
      ((groupOf (·.onuProducto) fs db (some k)).map (·.proveedorRUT)),
    monto_total := sqlSum ((groupOf (·.onuProducto) fs db (some k)).map
      (·.montoTotalOC)),
    monto_promedio := sqlAvg ((groupOf (·.onuProducto) fs db (some k)).map
      (·.montoTotalOC)) }

/-- `especialidades_completo_query` (app.py lines 529-540): per-category
aggregates over non-null categories, order count descending, no limit. -/
def especialidades_completo_rows (fs : FilterState) (db : List Row) :
    List EspRow :=
  sortLe (fun a b => decide (b.ordenes ≤ a.ordenes))
    ((espKeys fs db).map (espAggRow fs db))

/-- The denominator of the `participacion` column (app.py line 546):
`df_esp_completo[ordenes].sum()`, the total order count over the returned
categories. -/
def espTotalOrdenes (fs : FilterState) (db : List Row) : Nat :=
  ((especialidades_completo_rows fs db).map (·.ordenes)).sum

/-- Round an exact rational to the nearest integer, ties to the even
integer: the rounding used by `pandas`/`numpy` `.round`. -/
def roundHalfEvenZ (x : Rat) : Int :=
  if x - ⌊x⌋ < 1/2 then ⌊x⌋
  else if 1/2 < x - ⌊x⌋ then ⌊x⌋ + 1
  else if ⌊x⌋ % 2 = 0 then ⌊x⌋ else ⌊x⌋ + 1

/-- Round to one decimal place, ties to even: `.round(1)`. -/
def round1 (x : Rat) : Rat := (roundHalfEvenZ (10 * x) : Rat) / 10

/-- The `participacion` column of app.py line 546: each returned category's
order count as a percentage of the view's total order count, rounded to one
decimal. -/
def espParticipaciones (fs : FilterState) (db : List Row) : List Rat :=
  (especialidades_completo_rows fs db).map
    (fun g => round1 ((g.ordenes : Rat) / (espTotalOrdenes fs db : Rat) * 100))

/-- The full result set of `detalle_query` (app.py lines 584-599) before
its LIMIT: the matching rows ordered by parsed date descending. -/
def detalle_all (fs : FilterState) (db : List Row) : List Row :=
  sortLe (fun a b => optIntDescLe a.fechaParsed b.fechaParsed) (matching fs db)

/-- `detalle_query` with its LIMIT (the slider value, app.py line 582). -/
def detalle_rows (fs : FilterState) (db : List Row) (lim : Nat) : List Row :=
  (detalle_all fs db).take lim

-- ==========================================
-- Concrete fixtures for witnesses and counterexamples
-- ==========================================

/-- All filters at their unconstrained defaults except the (always active)
2025 date bounds, health filter off. -/
def fsAll : FilterState :=
  ⟨false, 20250101, 20251231, "Todas", "Todas", "Todas", ""⟩

/-- Default filter state with the health filter on (the UI default). -/
def fsHealth : FilterState :=
  ⟨true, 20250101, 20251231, "Todas", "Todas", "Todas", ""⟩

/-- A supplier-region value outside the 16-region enumeration. -/
def fsNarnia : FilterState :=
  ⟨true, 20250101, 20251231, "Narnia", "Todas", "Todas", ""⟩

/-- Inverted date bounds: the lower bound is after the upper bound. -/
def fsInverted : FilterState :=
  ⟨false, 20250105, 20250101, "Todas", "Todas", "Todas", ""⟩

/-- A minimal row with a given category and a 2025 parsed date. -/
def sampleCatRow (c : String) : Row :=
  ⟨none, some 20250601, none, none, none, none, some c, none, none⟩

/-- Sixteen matching rows with sixteen distinct categories, one row each. -/
def db16 : List Row := (List.range 16).map (fun i => sampleCatRow (toString i))

/-- A matching row whose supplier region is NULL and whose amount parses. -/
def rowNullRegion : Row :=
  ⟨none, some 20250601, none, none, none, none, some "x", none, some 5⟩

/-- A row whose raw send date failed to parse (`fechaParsed = none`) but
whose commodity category contains "Salud". -/
def rowBadDate : Row :=
  ⟨none, none, none, none, none, none, none, some "Servicios de Salud", none⟩

/-- A matching row whose amount text failed to parse as a number. -/
def rowNoMonto : Row :=
  ⟨none, some 20250601, none, some "11.111.111-1", none, none, some "a", none, none⟩

/-- A row with a 2025 parsed date, used against `fsInverted`. -/
def rowJune : Row := sampleCatRow "z"

-- ==========================================
-- Helper lemmas
-- ==========================================

theorem insertLe_perm (le : α → α → Bool) (x : α) (l : List α) :
    List.Perm (insertLe le x l) (x :: l) := by
  induction l with
  | nil => exact List.Perm.refl _
  | cons y ys ih =>
      simp only [insertLe]
      split
      · exact List.Perm.refl _
      · exact (List.Perm.cons y ih).trans (List.Perm.swap x y ys)

theorem sortLe_perm (le : α → α → Bool) (l : List α) : List.Perm (sortLe le l) l := by
  induction l with
  | nil => exact List.Perm.refl _
  | cons x xs ih => exact (insertLe_perm le x (sortLe le xs)).trans (List.Perm.cons x ih)

theorem sortLe_length (le : α → α → Bool) (l : List α) :
    (sortLe le l).length = l.length :=
  (sortLe_perm le l).length_eq

theorem mem_sortLe {le : α → α → Bool} {l : List α} {a : α} :
    a ∈ sortLe le l ↔ a ∈ l :=
  (sortLe_perm le l).mem_iff

theorem sqlSum_none_cons (l : List (Option Rat)) :
    sqlSum (none :: l) = sqlSum l := by
  simp [sqlSum]

theorem sqlAvg_none_cons (l : List (Option Rat)) :
    sqlAvg (none :: l) = sqlAvg l := by
  simp [sqlAvg]

theorem matching_cons_of_matches {fs : FilterState} {r : Row} (db : List Row)
    (h : rowMatches fs r = true) :
    matching fs (r :: db) = r :: matching fs db := by
  simp [matching, List.filter_cons, h]

theorem groupOf_cons (f : Row → Option String) {fs : FilterState} {r : Row}
    (db : List Row) (k : Option String) (h : rowMatches fs r = true) :
    groupOf f fs (r :: db) k
      = if f r = k then r :: groupOf f fs db k else groupOf f fs db k := by
  simp only [groupOf, matching_cons_of_matches db h, List.filter_cons]
  by_cases hk : f r = k <;> simp [hk]

theorem group_insert_stats (f : Row → Option String) {fs : FilterState}
    {r : Row} (db : List Row) (k : Option String) (hm : r.montoTotalOC = none)
    (h : rowMatches fs r = true) :
    (groupOf f fs (r :: db) k).length
      = (groupOf f fs db k).length + (if f r = k then 1 else 0) ∧
    sqlSum ((groupOf f fs (r :: db) k).map (·.montoTotalOC))
      = sqlSum ((groupOf f fs db k).map (·.montoTotalOC)) ∧
    sqlAvg ((groupOf f fs (r :: db) k).map (·.montoTotalOC))
      = sqlAvg ((groupOf f fs db k).map (·.montoTotalOC)) := by
  rw [groupOf_cons f db k h]
  by_cases hk : f r = k
  · simp [hk, hm, sqlSum_none_cons, sqlAvg_none_cons]
  · simp [hk]

theorem trend_count_insert {fs : FilterState} {r : Row} (db : List Row)
    (m : Option Int) (h : rowMatches fs r = true) :
    ((matching fs (r :: db)).filter (fun x => decide (mesOf x = m))).length
      = ((matching fs db).filter (fun x => decide (mesOf x = m))).length
        + (if mesOf r = m then 1 else 0) := by
  rw [matching_cons_of_matches db h, List.filter_cons]
  by_cases hm2 : mesOf r = m <;> simp [hm2]

theorem rowMatches_false_of_fecha_none {fs : FilterState} {r : Row}
    (h : r.fechaParsed = none) : rowMatches fs r = false := by
  simp [rowMatches, clause_fecha_ge, h]

theorem fecha_of_matches {fs : FilterState} {r : Row}
    (h : rowMatches fs r = true) : ∃ d, r.fechaParsed = some d := by
  cases hf : r.fechaParsed with
  | some d => exact ⟨d, rfl⟩
  | none => rw [rowMatches_false_of_fecha_none hf] at h; cases h

theorem date_bounds_of_matches {fs : FilterState} {r : Row} {d : Int}
    (h : rowMatches fs r = true) (hf : r.fechaParsed = some d) :
    fs.fecha_inicio ≤ d ∧ d ≤ fs.fecha_fin := by
  simp only [rowMatches, Bool.and_eq_true] at h
  obtain ⟨⟨⟨⟨⟨⟨-, hge⟩, hle⟩, -⟩, -⟩, -⟩, -⟩ := h
  constructor
  · simpa [clause_fecha_ge, hf] using hge
  · simpa [clause_fecha_le, hf] using hle

theorem rowMatches_false_of_inverted {fs : FilterState} (r : Row)
    (h : fs.fecha_fin < fs.fecha_inicio) : rowMatches fs r = false := by
  cases hm : rowMatches fs r with
  | false => rfl
  | true =>
      obtain ⟨d, hd⟩ := fecha_of_matches hm
      obtain ⟨h1, h2⟩ := date_bounds_of_matches hm hd
      omega

theorem matching_nil_of_inverted (fs : FilterState) (db : List Row)
    (h : fs.fecha_fin < fs.fecha_inicio) : matching fs db = [] := by
  refine List.filter_eq_nil_iff.mpr (fun r _ => ?_)
  simp [rowMatches_false_of_inverted r h]

theorem views_empty_of_matching_nil (fs : FilterState) (db : List Row)
    (h : matching fs db = []) :
    top_especialidades_rows fs db = [] ∧
    monto_region_rows fs db = [] ∧
    tendencia_rows fs db = [] ∧
    adj_region_rows fs db = [] ∧
    compras_region_rows fs db = [] ∧
    especialidades_completo_rows fs db = [] ∧
    espParticipaciones fs db = [] ∧
    detalle_all fs db = [] ∧
    kpi_rows fs db = [⟨0, 0, none⟩] ∧
    regiones_activas fs db = 0 := by
  simp [top_especialidades_rows, monto_region_rows, tendencia_rows,
    adj_region_rows, compras_region_rows, especialidades_completo_rows,
    espParticipaciones, espKeys, groupKeys, detalle_all, kpi_rows, kpi_row,
    regiones_activas, distinctCount, sqlSum, sortLe, h]

-- ==========================================
-- Claim theorems
-- ==========================================

/-- C1: the code builds the search clause by raw interpolation, so for the
term `' OR 1=1 --` the term's quote closes the LIKE pattern early: the SQL
lexer sees the pattern literal `%` (matching every non-null supplier) and
the text `or 1=1` in operator position outside every string literal, not
the literal substring pattern the claim requires.  A benign term is indeed
embedded as the two expected pattern literals. -/
theorem C1_search_term_injection :
    sqlLiterals (search_clause "\x27 OR 1=1 --") =
      ["%", " OR ProveedorRUT LIKE ", " OR 1=1 --%"] ∧
    sqlOutsideText (search_clause "\x27 OR 1=1 --") =
      "(LOWER(Proveedor) LIKE  or 1=1 --%%)" ∧
    sqlLiterals (search_clause "\x27 OR 1=1 --") ≠
      ["%\x27 or 1=1 --%", "%\x27 OR 1=1 --%"] ∧
    sqlLiterals (search_clause "abc") = ["%abc%", "%abc%"] ∧
    sqlOutsideText (search_clause "abc") =
      "(LOWER(Proveedor) LIKE  OR ProveedorRUT LIKE )" := by
  with_unfolding_all decide

/-- C2 (counterexample): for a supplier-region value outside the 16-region
enumeration the code raises no error: compilation succeeds and the invalid
value is interpolated into the WHERE string that every query then runs. -/
theorem C2_no_validation_counterexample :
    fsNarnia.region_proveedor ≠ "Todas" ∧
    fsNarnia.region_proveedor ∉ REGIONES_CHILE ∧
    compile fsNarnia = Except.ok (where_sql fsNarnia) ∧
    strContainsSub (where_sql fsNarnia) "RegionProveedor = \x27Narnia\x27" = true := by
  refine ⟨by with_unfolding_all decide, by decide, rfl, by with_unfolding_all decide⟩

/-- C2 (amended): the compiler never validates and never fails; invalid
region or category values are prevented only by control population: the
region selectboxes offer exactly `Todas` plus the 16 enumerated regions,
and the category selectbox offers `Todas` plus categories present in the
loaded data. -/
theorem C2_amended_control_population :
    (∀ v ∈ region_proveedor_options, v = "Todas" ∨ v ∈ REGIONES_CHILE) ∧
    (∀ v ∈ region_compra_options, v = "Todas" ∨ v ∈ REGIONES_CHILE) ∧
    (∀ db : List Row, ∀ v ∈ especialidades_options db,
      v = "Todas" ∨ some v ∈ db.map (·.onuProducto)) ∧
    (∀ fs : FilterState, (compile fs).isOk = true) := by
  refine ⟨?_, ?_, ?_, fun _ => rfl⟩
  · intro v hv
    exact List.mem_cons.mp hv
  · intro v hv
    exact List.mem_cons.mp hv
  · intro db v hv
    rcases List.mem_cons.mp hv with h | h
    · exact Or.inl h
    · right
      obtain ⟨r, hr, he⟩ := List.mem_filterMap.mp (List.mem_dedup.mp h)
      exact List.mem_map.mpr ⟨r, hr, he⟩

/-- Witness for `C2_amended_control_population` at concrete inputs. -/
theorem C2_amended_control_population_witness :
    ("Maule" = "Todas" ∨ "Maule" ∈ REGIONES_CHILE) ∧
    (compile fsAll).isOk = true :=
  ⟨C2_amended_control_population.1 "Maule" (by with_unfolding_all decide),
   C2_amended_control_population.2.2.2 fsAll⟩

/-- C3: with every filter at its default except the date bounds, a row
satisfies the compiled predicate exactly when its parsed send date exists
and lies in the inclusive range. -/
theorem C3_default_filters_date_range_only (fi ff : Int) (r : Row) :
    rowMatches ⟨false, fi, ff, "Todas", "Todas", "Todas", ""⟩ r = true ↔
      ∃ d, r.fechaParsed = some d ∧ fi ≤ d ∧ d ≤ ff := by
  cases hf : r.fechaParsed with
  | none => simp [rowMatches, clause_fecha_ge, hf]
  | some d => simp [rowMatches, clause_fecha_ge, clause_fecha_le, hf]

/-- C4 (counterexample): a record whose send date failed to parse satisfies
the active health filter, yet the always-present date clauses reject it, so
it does not appear in the Record Listing, contrary to the claim. -/
theorem C4_null_date_dropped_counterexample :
    rowBadDate.fechaParsed = none ∧
    clause_salud rowBadDate = true ∧
    rowMatches fsHealth rowBadDate = false ∧
    matching fsHealth [rowBadDate] = [] ∧
    detalle_rows fsHealth [rowBadDate] 1000 = [] := by
  with_unfolding_all decide

/-- C4 (amended): an unparseable send date becomes null without an error,
but because the two date clauses are always present, a null-date record
satisfies no compiled predicate and is excluded from the row set of every
view, the Record Listing included. -/
theorem C4_amended_null_date_excluded (fs : FilterState) (r : Row)
    (h : r.fechaParsed = none) :
    rowMatches fs r = false ∧ ∀ db : List Row, r ∉ detalle_all fs db := by
  have h1 : rowMatches fs r = false := rowMatches_false_of_fecha_none h
  refine ⟨h1, fun db hmem => ?_⟩
  simp only [detalle_all] at hmem
  have h3 := (List.mem_filter.mp (mem_sortLe.mp hmem)).2
  simp [h1] at h3

/-- Witness for `C4_amended_null_date_excluded` at a concrete row. -/
theorem C4_amended_null_date_excluded_witness :
    rowBadDate.fechaParsed = none ∧
    rowMatches fsAll rowBadDate = false ∧
    rowBadDate ∉ detalle_all fsAll [rowBadDate] :=
  ⟨rfl, (C4_amended_null_date_excluded fsAll rowBadDate rfl).1,
   (C4_amended_null_date_excluded fsAll rowBadDate rfl).2 [rowBadDate]⟩

/-- C5 (counterexample): a matching row with a NULL supplier region forms a
NULL group that the region-grouped views return, contrary to the claim that
null-key rows are excluded from every grouped view. -/
theorem C5_null_region_group_included_counterexample :
    rowMatches fsAll rowNullRegion = true ∧
    monto_region_rows fsAll [rowNullRegion] = [(none, some 5)] ∧
    adj_region_rows fsAll [rowNullRegion] =
      [{ region := none, adjudicadores := 0, ordenes := 1 }] ∧
    compras_region_rows fsAll [rowNullRegion] =
      [{ region := none, ordenes := 1, monto_total := some 5 }] := by
  with_unfolding_all decide

/-- C5 (amended): only the two category views exclude NULL keys (their
keys always come from a matching row's non-null category); the monthly
trend can have no NULL month because the date filter excludes unparsed
dates; the region-grouped views keep NULL-region groups (see the
counterexample); and the ungrouped KPI count includes every matching row
whatever its keys. -/
theorem C5_amended_null_group_handling :
    (∀ (fs : FilterState) (db : List Row), ∀ p ∈ top_especialidades_rows fs db,
      some p.1 ∈ (matching fs db).map (·.onuProducto)) ∧
    (∀ (fs : FilterState) (db : List Row), ∀ q ∈ especialidades_completo_rows fs db,
      some q.especialidad ∈ (matching fs db).map (·.onuProducto)) ∧
    (∀ (fs : FilterState) (db : List Row), ∀ t ∈ tendencia_rows fs db,
      t.mes ≠ none) ∧
    (∀ (fs : FilterState) (db : List Row) (r : Row), rowMatches fs r = true →
      (kpi_row fs (r :: db)).total_ordenes = (kpi_row fs db).total_ordenes + 1) := by
  refine ⟨?_, ?_, ?_, ?_⟩
  · intro fs db p hp
    have hp2 := mem_sortLe.mp (List.take_subset 10 _ hp)
    obtain ⟨k, hk, rfl⟩ := List.mem_map.mp hp2
    simp only [espKeys] at hk
    obtain ⟨r, hr, he⟩ := List.mem_filterMap.mp (List.mem_dedup.mp hk)
    exact List.mem_map.mpr ⟨r, hr, he⟩
  · intro fs db q hq
    have hq2 := mem_sortLe.mp hq
    obtain ⟨k, hk, rfl⟩ := List.mem_map.mp hq2
    simp only [espKeys] at hk
    obtain ⟨r, hr, he⟩ := List.mem_filterMap.mp (List.mem_dedup.mp hk)
    exact List.mem_map.mpr ⟨r, hr, he⟩
  · intro fs db t ht
    obtain ⟨m, hm, rfl⟩ := List.mem_map.mp (mem_sortLe.mp ht)
    obtain ⟨r, hr, hmr⟩ := List.mem_map.mp (List.mem_dedup.mp hm)
    simp only [matching] at hr
    obtain ⟨d, hd⟩ := fecha_of_matches (List.mem_filter.mp hr).2
    simp only [mesOf, hd, Option.map_some] at hmr
    simp [← hmr]
  · intro fs db r h
    simp [kpi_row, matching_cons_of_matches db h]

/-- Witness for `C5_amended_null_group_handling`: the KPI count conjunct
applied to a matching row whose region key is NULL. -/
theorem C5_amended_null_group_handling_witness :
    rowMatches fsAll rowNullRegion = true ∧
    (kpi_row fsAll [rowNullRegion]).total_ordenes
      = (kpi_row fsAll []).total_ordenes + 1 :=
  ⟨by with_unfolding_all decide,
   C5_amended_null_group_handling.2.2.2 fsAll [] rowNullRegion (by with_unfolding_all decide)⟩

/-- C6: a matching record whose amount text fails to parse is counted by
every view that counts rows, and contributes to no view's SUM or AVG of
the amount.  Inserting such a record raises by exactly one: the KPI row
count, its category group's count (the count column of Top Categories and
of Category Detail), its supplier-region group's count (Supplier-Region
Breakdown), its purchase-region group's count (Purchase-Region Breakdown)
and its month group's count (Monthly Trend) — each stated for every key,
with other groups unchanged — while the amount SUM and AVG of every group
of every view (KPI, Region Amount Distribution, Purchase-Region Breakdown,
Category Detail) are unchanged. -/
theorem C6_unparseable_amount_counted_not_summed (fs : FilterState)
    (db : List Row) (r : Row) (hm : r.montoTotalOC = none)
    (h : rowMatches fs r = true) :
    (kpi_row fs (r :: db)).total_ordenes = (kpi_row fs db).total_ordenes + 1 ∧
    (kpi_row fs (r :: db)).monto_total = (kpi_row fs db).monto_total ∧
    (∀ k : Option String,
      (groupOf (·.onuProducto) fs (r :: db) k).length
        = (groupOf (·.onuProducto) fs db k).length
          + (if r.onuProducto = k then 1 else 0) ∧
      sqlSum ((groupOf (·.onuProducto) fs (r :: db) k).map (·.montoTotalOC))
        = sqlSum ((groupOf (·.onuProducto) fs db k).map (·.montoTotalOC)) ∧
      sqlAvg ((groupOf (·.onuProducto) fs (r :: db) k).map (·.montoTotalOC))
        = sqlAvg ((groupOf (·.onuProducto) fs db k).map (·.montoTotalOC))) ∧
    (∀ k : Option String,
      (groupOf (·.regionProveedor) fs (r :: db) k).length
        = (groupOf (·.regionProveedor) fs db k).length
          + (if r.regionProveedor = k then 1 else 0) ∧
      sqlSum ((groupOf (·.regionProveedor) fs (r :: db) k).map (·.montoTotalOC))
        = sqlSum ((groupOf (·.regionProveedor) fs db k).map (·.montoTotalOC)) ∧
      sqlAvg ((groupOf (·.regionProveedor) fs (r :: db) k).map (·.montoTotalOC))
        = sqlAvg ((groupOf (·.regionProveedor) fs db k).map (·.montoTotalOC))) ∧
    (∀ k : Option String,
      (groupOf (·.regionUnidadCompra) fs (r :: db) k).length
        = (groupOf (·.regionUnidadCompra) fs db k).length
          + (if r.regionUnidadCompra = k then 1 else 0) ∧
      sqlSum ((groupOf (·.regionUnidadCompra) fs (r :: db) k).map (·.montoTotalOC))
        = sqlSum ((groupOf (·.regionUnidadCompra) fs db k).map (·.montoTotalOC)) ∧
      sqlAvg ((groupOf (·.regionUnidadCompra) fs (r :: db) k).map (·.montoTotalOC))
        = sqlAvg ((groupOf (·.regionUnidadCompra) fs db k).map (·.montoTotalOC))) ∧
    (∀ m : Option Int,
      ((matching fs (r :: db)).filter (fun x => decide (mesOf x = m))).length
        = ((matching fs db).filter (fun x => decide (mesOf x = m))).length
          + (if mesOf r = m then 1 else 0)) ∧
    (∀ c : String,
      (espAggRow fs (r :: db) c).ordenes
        = (espAggRow fs db c).ordenes
          + (if r.onuProducto = some c then 1 else 0) ∧
      (espAggRow fs (r :: db) c).monto_total = (espAggRow fs db c).monto_total ∧
      (espAggRow fs (r :: db) c).monto_promedio
        = (espAggRow fs db c).monto_promedio) := by
  refine ⟨?_, ?_,
    fun k => group_insert_stats (·.onuProducto) db k hm h,
    fun k => group_insert_stats (·.regionProveedor) db k hm h,
    fun k => group_insert_stats (·.regionUnidadCompra) db k hm h,
    fun m => trend_count_insert db m h,
    fun c => ?_⟩
  · simp [kpi_row, matching_cons_of_matches db h]
  · simp [kpi_row, matching_cons_of_matches db h, hm, sqlSum_none_cons]
  · have hg := group_insert_stats (·.onuProducto) db (some c) hm h
    exact ⟨hg.1, hg.2.1, hg.2.2⟩

/-- Witness for `C6_unparseable_amount_counted_not_summed` at a concrete
matching row with an unparseable amount, touching the KPI conjuncts and
one key of each grouped-view conjunct. -/
theorem C6_unparseable_amount_witness :
    rowNoMonto.montoTotalOC = none ∧
    rowMatches fsAll rowNoMonto = true ∧
    (kpi_row fsAll [rowNoMonto]).total_ordenes
      = (kpi_row fsAll []).total_ordenes + 1 ∧
    (kpi_row fsAll [rowNoMonto]).monto_total = (kpi_row fsAll []).monto_total ∧
    ((groupOf (·.onuProducto) fsAll [rowNoMonto] (some "a")).length
      = (groupOf (·.onuProducto) fsAll [] (some "a")).length
        + (if rowNoMonto.onuProducto = some "a" then 1 else 0)) ∧
    sqlSum ((groupOf (·.regionProveedor) fsAll [rowNoMonto] none).map
        (·.montoTotalOC))
      = sqlSum ((groupOf (·.regionProveedor) fsAll [] none).map
        (·.montoTotalOC)) ∧
    ((matching fsAll [rowNoMonto]).filter
        (fun x => decide (mesOf x = some 202506))).length
      = ((matching fsAll []).filter
          (fun x => decide (mesOf x = some 202506))).length
        + (if mesOf rowNoMonto = some 202506 then 1 else 0) ∧
    (espAggRow fsAll [rowNoMonto] "a").monto_promedio
      = (espAggRow fsAll [] "a").monto_promedio :=
  ⟨rfl, by with_unfolding_all decide,
   (C6_unparseable_amount_counted_not_summed fsAll [] rowNoMonto rfl
      (by with_unfolding_all decide)).1,
   (C6_unparseable_amount_counted_not_summed fsAll [] rowNoMonto rfl
      (by with_unfolding_all decide)).2.1,
   ((C6_unparseable_amount_counted_not_summed fsAll [] rowNoMonto rfl
      (by with_unfolding_all decide)).2.2.1 (some "a")).1,
   ((C6_unparseable_amount_counted_not_summed fsAll [] rowNoMonto rfl
      (by with_unfolding_all decide)).2.2.2.1 none).2.1,
   (C6_unparseable_amount_counted_not_summed fsAll [] rowNoMonto rfl
      (by with_unfolding_all decide)).2.2.2.2.2.1 (some 202506),
   ((C6_unparseable_amount_counted_not_summed fsAll [] rowNoMonto rfl
      (by with_unfolding_all decide)).2.2.2.2.2.2 "a").2.2⟩

/-- C8: the KPI row count equals the number of rows available to the
Record Listing before its display limit, under the same predicate. -/
theorem C8_kpi_count_eq_detalle_total (fs : FilterState) (db : List Row) :
    (kpi_row fs db).total_ordenes = (detalle_all fs db).length := by
  simp [kpi_row, detalle_all, sortLe_length]

/-- C9 (counterexample): on an empty store the KPI aggregate query still
returns one row (zero counts, NULL sum), not an empty result. -/
theorem C9_kpi_row_nonempty_counterexample :
    kpi_rows fsAll ([] : List Row) = [⟨0, 0, none⟩] ∧
    kpi_rows fsAll ([] : List Row) ≠ ([] : List KpiRow) := by
  with_unfolding_all decide

/-- C9 (amended): when no row matches the predicate (in particular over an
empty store), every grouped view, the trend and the listing return empty
results and no error is raised, while the KPI query returns its single row
of zero counts and NULL sum and the active-region count is zero. -/
theorem C9_amended_empty_match_results (fs : FilterState) (db : List Row)
    (h : matching fs db = []) :
    top_especialidades_rows fs db = [] ∧
    monto_region_rows fs db = [] ∧
    tendencia_rows fs db = [] ∧
    adj_region_rows fs db = [] ∧
    compras_region_rows fs db = [] ∧
    especialidades_completo_rows fs db = [] ∧
    espParticipaciones fs db = [] ∧
    detalle_all fs db = [] ∧
    kpi_rows fs db = [⟨0, 0, none⟩] ∧
    regiones_activas fs db = 0 :=
  views_empty_of_matching_nil fs db h

/-- Witness for `C9_amended_empty_match_results` on the empty store. -/
theorem C9_amended_empty_match_results_witness :
    matching fsAll ([] : List Row) = [] ∧
    top_especialidades_rows fsAll [] = [] :=
  ⟨rfl, (C9_amended_empty_match_results fsAll [] rfl).1⟩

/-- C10 (counterexample): with inverted date bounds the predicate is
indeed unsatisfiable, but the KPI view still returns its one zero row, so
not every aggregation view returns an empty result. -/
theorem C10_kpi_nonempty_counterexample :
    fsInverted.fecha_fin < fsInverted.fecha_inicio ∧
    rowMatches fsInverted rowJune = false ∧
    kpi_rows fsInverted [rowJune] ≠ ([] : List KpiRow) := by
  with_unfolding_all decide

/-- C10 (amended): when the lower date bound is strictly after the upper
bound the two always-present inclusive date clauses are jointly
unsatisfiable, so no row matches whatever the other filters; every grouped
view and the listing return empty results, and the KPI query returns its
single zero row. -/
theorem C10_amended_inverted_dates (fs : FilterState) (db : List Row)
    (h : fs.fecha_fin < fs.fecha_inicio) :
    matching fs db = [] ∧
    top_especialidades_rows fs db = [] ∧
    monto_region_rows fs db = [] ∧
    tendencia_rows fs db = [] ∧
    adj_region_rows fs db = [] ∧
    compras_region_rows fs db = [] ∧
    especialidades_completo_rows fs db = [] ∧
    detalle_all fs db = [] ∧
    kpi_rows fs db = [⟨0, 0, none⟩] := by
  have hm := matching_nil_of_inverted fs db h
  obtain ⟨h1, h2, h3, h4, h5, h6, -, h8, h9, -⟩ :=
    views_empty_of_matching_nil fs db hm
  exact ⟨hm, h1, h2, h3, h4, h5, h6, h8, h9⟩

/-- Witness for `C10_amended_inverted_dates` at concrete inverted bounds. -/
theorem C10_amended_inverted_dates_witness :
    fsInverted.fecha_fin < fsInverted.fecha_inicio ∧
    matching fsInverted [rowJune] = [] :=
  ⟨by with_unfolding_all decide, (C10_amended_inverted_dates fsInverted [rowJune] (by with_unfolding_all decide)).1⟩

-- ==========================================
-- Rounding error analysis for the participacion column (claim C7)
-- ==========================================

theorem roundHalfEvenZ_close (x : Rat) :
    |(roundHalfEvenZ x : Rat) - x| ≤ 1/2 := by
  have h1 : ((⌊x⌋ : Rat)) ≤ x := Int.floor_le x
  have h2 : x < (⌊x⌋ : Rat) + 1 := Int.lt_floor_add_one x
  unfold roundHalfEvenZ
  split_ifs with ha hb hc <;>
    (rw [abs_le]; constructor <;> push_cast <;> linarith)

theorem round1_close (x : Rat) : |round1 x - x| ≤ 1/20 := by
  have h := roundHalfEvenZ_close (10 * x)
  have heq : round1 x - x = ((roundHalfEvenZ (10 * x) : Rat) - 10 * x) / 10 := by
    unfold round1; ring
  rw [heq, abs_div, abs_of_nonneg (by norm_num : (0:Rat) ≤ 10)]
  linarith

theorem list_sum_map_mul (l : List Rat) (a : Rat) :
    (l.map (fun c => c * a)).sum = l.sum * a := by
  induction l with
  | nil => simp
  | cons x xs ih => simp [ih, add_mul]

theorem sum_map_round1_close (l : List Rat) :
    |(l.map round1).sum - l.sum| ≤ (l.length : Rat) / 20 := by
  induction l with
  | nil => simp
  | cons x xs ih =>
      have hx := round1_close x
      simp only [List.map_cons, List.sum_cons, List.length_cons]
      have heq : round1 x + (xs.map round1).sum - (x + xs.sum)
          = (round1 x - x) + ((xs.map round1).sum - xs.sum) := by ring
      rw [heq]
      calc |(round1 x - x) + ((xs.map round1).sum - xs.sum)|
          ≤ |round1 x - x| + |(xs.map round1).sum - xs.sum| := abs_add _ _
        _ ≤ 1/20 + (xs.length : Rat) / 20 := add_le_add hx ih
        _ = ((xs.length : Rat) + 1) / 20 := by ring
        _ = (((xs.length + 1 : Nat)) : Rat) / 20 := by push_cast; ring

theorem shares_sum_exact (l : List Rat) (h : l.sum ≠ 0) :
    (l.map (fun c => c / l.sum * 100)).sum = 100 := by
  have heq : (fun c => c / l.sum * 100) = fun c => c * (100 / l.sum) := by
    funext c; ring
  rw [heq, list_sum_map_mul]
  field_simp

theorem shareSum_bound (l : List Rat) (h : l.sum ≠ 0) :
    |(l.map (fun c => round1 (c / l.sum * 100))).sum - 100|
      ≤ (l.length : Rat) / 20 := by
  have he := shares_sum_exact l h
  have hs := sum_map_round1_close (l.map (fun c => c / l.sum * 100))
  rw [List.map_map, he, List.length_map] at hs
  simpa [Function.comp] using hs

theorem shareSum_boundN (counts : List Nat) (h : counts.sum ≠ 0) :
    |(counts.map (fun (c : Nat) => round1 ((c : Rat) / (counts.sum : Rat) * 100))).sum - 100|
      ≤ (counts.length : Rat) / 20 := by
  have hl : ((counts.map (Nat.cast : Nat → Rat)).sum) = ((counts.sum : Rat)) :=
    (Nat.cast_list_sum counts).symm
  have h0 : (counts.map (Nat.cast : Nat → Rat)).sum ≠ 0 := by
    rw [hl]
    exact Nat.cast_ne_zero.mpr h
  have hb := shareSum_bound (counts.map (Nat.cast : Nat → Rat)) h0
  rw [hl, List.map_map, List.length_map] at hb
  simpa [Function.comp] using hb

theorem espOrdenes_pos (fs : FilterState) (db : List Row) (g : EspRow)
    (hg : g ∈ especialidades_completo_rows fs db) : 1 ≤ g.ordenes := by
  have h2 := mem_sortLe.mp hg
  obtain ⟨k, hk, rfl⟩ := List.mem_map.mp h2
  simp only [espKeys] at hk
  obtain ⟨r, hr, he⟩ := List.mem_filterMap.mp (List.mem_dedup.mp hk)
  have hmem : r ∈ groupOf (·.onuProducto) fs db (some k) :=
    List.mem_filter.mpr ⟨hr, by simp [he]⟩
  exact List.length_pos.mpr (List.ne_nil_of_mem hmem)

theorem espTotalOrdenes_pos (fs : FilterState) (db : List Row)
    (h : especialidades_completo_rows fs db ≠ []) :
    0 < espTotalOrdenes fs db := by
  obtain ⟨g, hg⟩ := List.exists_mem_of_ne_nil _ h
  have h1 := espOrdenes_pos fs db g hg
  have h2 : g.ordenes ∈ (especialidades_completo_rows fs db).map (·.ordenes) :=
    List.mem_map.mpr ⟨g, hg, rfl⟩
  have h3 := List.single_le_sum (fun x _ => Nat.zero_le x) _ h2
  simp only [espTotalOrdenes]
  omega

set_option maxRecDepth 100000 in
/-- C7 (counterexample): sixteen categories with one matching order each
give each category the exact share 6.25, which rounds (ties to even) to
6.2; the returned shares sum to 99.2, outside the claimed 100.0 plus or
minus 0.1. -/
theorem C7_share_sum_counterexample :
    especialidades_completo_rows fsAll db16 ≠ [] ∧
    (espParticipaciones fsAll db16).sum = 496/5 ∧
    ¬ |(espParticipaciones fsAll db16).sum - 100| ≤ 1/10 := by
  with_unfolding_all decide

/-- C7 (amended): each returned category share is its row count divided by
the total returned row count, times 100, rounded to one decimal with ties
to even; the shares sum to 100 only up to half a rounding step per
returned category, that is within `k/20` for `k` returned categories (so
the 0.1 tolerance of the claim can fail, see the counterexample). -/
theorem C7_amended_share_sum_bound (fs : FilterState) (db : List Row)
    (h : especialidades_completo_rows fs db ≠ []) :
    |(espParticipaciones fs db).sum - 100|
      ≤ ((espParticipaciones fs db).length : Rat) / 20 := by
  have hT : espTotalOrdenes fs db ≠ 0 :=
    Nat.pos_iff_ne_zero.mp (espTotalOrdenes_pos fs db h)
  have hb := shareSum_boundN ((especialidades_completo_rows fs db).map (·.ordenes))
    (by simpa [espTotalOrdenes] using hT)
  rw [List.map_map, List.length_map] at hb
  simpa [espParticipaciones, espTotalOrdenes, Function.comp] using hb

/-- Witness for `C7_amended_share_sum_bound` on a one-category store. -/
theorem C7_amended_share_sum_bound_witness :
    especialidades_completo_rows fsAll [sampleCatRow "a"] ≠ [] ∧
    |(espParticipaciones fsAll [sampleCatRow "a"]).sum - 100|
      ≤ ((espParticipaciones fsAll [sampleCatRow "a"]).length : Rat) / 20 :=
  ⟨by with_unfolding_all decide,
   C7_amended_share_sum_bound fsAll [sampleCatRow "a"]
     (by with_unfolding_all decide)⟩

end SaludApp
